import Mathlib

/-!
Shallow embedding of the real-time status synchronization subsystem of the
team-status application.

Server side (from `backend/db.js` and `backend/server.js`):
* the Live Cache `liveStatuses : { userId : { date : statusText } }`,
  modelled as a string-keyed association list of association lists;
* the Persistent Store (the `statuses` SQLite table keyed by
  `(employee_id, status_date)`), modelled as an association list keyed by
  the pair, with the possibility that the write throws modelled by an
  explicit `persistOk` flag per call;
* `saveStatusDB`, `getAllStatuses`, and the WebSocket handlers
  `open` / `message` / `close` of `Bun.serve`, with `server.publish` to the
  topic modelled as delivery to every currently subscribed connection.

Client side (from the WebSocket section of the frontend data service):
* the listener registry (`messageListeners`, a Set) with
  `notifyListeners`, `addWebSocketMessageListener` and the remover it
  returns;
* the reconnection state machine
  (`connectWebSocketInternal` / `handleWebSocketClose` / `connectWebSocket`)
  with `reconnectAttempts`, `MAX_RECONNECT_ATTEMPTS = 5` and the fixed
  `RECONNECT_DELAY = 3000`.
-/

/-! ### JavaScript-object-like association lists -/

/-- JS property assignment `m[k] = v` on a string-keyed object: update the
key in place if present, otherwise append it. -/
def setKey {α : Type} (m : List (String × α)) (k : String) (v : α) :
    List (String × α) :=
  match m with
  | [] => [(k, v)]
  | (k', v') :: rest =>
    if k' = k then (k, v) :: rest else (k', v') :: setKey rest k v

/-- JS property read `m[k]` (as an `Option`). -/
def getKey {α : Type} (m : List (String × α)) (k : String) : Option α :=
  match m with
  | [] => none
  | (k', v') :: rest => if k' = k then some v' else getKey rest k

/-! ### db.js: Live Cache, Persistent Store, saveStatusDB -/

/-- The Live Cache `liveStatuses`: `{ userId: { date: statusText } }`. -/
abbrev Cache := List (String × List (String × String))

/-- The `statuses` table restricted to what the subsystem uses:
`(employee_id, status_date) → status_text` with a `UNIQUE` constraint on
the key (the refreshed timestamp is irrelevant to the claims). -/
abbrev Store := List ((String × String) × String)

/-- Read `liveStatuses[userId]?.[date]` from the cache. -/
def cacheLookup (c : Cache) (userId date : String) : Option String :=
  match getKey c userId with
  | none => none
  | some inner => getKey inner date

/-- The two cache statements of `saveStatusDB`:
`if (!liveStatuses[userId]) liveStatuses[userId] = {};`
`liveStatuses[userId][date] = statusText;` -/
def cacheSet (c : Cache) (userId date statusText : String) : Cache :=
  let c1 := match getKey c userId with
    | none => setKey c userId []
    | some _ => c
  match getKey c1 userId with
  | none => c1
  | some inner => setKey c1 userId (setKey inner date statusText)

/-- The upsert `INSERT ... ON CONFLICT(employee_id, status_date) DO UPDATE
SET status_text = excluded.status_text` on the `statuses` table. -/
def storeUpsert (s : Store) (userId date statusText : String) : Store :=
  match s with
  | [] => [((userId, date), statusText)]
  | (k, v) :: rest =>
    if k = (userId, date) then ((userId, date), statusText) :: rest
    else (k, v) :: storeUpsert rest userId date statusText

/-- Read a row of the Persistent Store by its `(employee_id, status_date)`
key. -/
def storeLookup (s : Store) (userId date : String) : Option String :=
  match s with
  | [] => none
  | (k, v) :: rest => if k = (userId, date) then some v else storeLookup rest userId date

/-- `saveStatusDB(userId, date, statusText)` from `db.js`: update the Live
Cache immediately, then attempt the upsert; `persistOk = false` models the
database call throwing, in which case the error is logged, the cache keeps
the new value, and the function returns `false`. -/
def saveStatusDB (persistOk : Bool) (cache : Cache) (store : Store)
    (userId date statusText : String) : Cache × Store × Bool :=
  let cache' := cacheSet cache userId date statusText
  if persistOk then (cache', storeUpsert store userId date statusText, true)
  else (cache', store, false)

/-! ### server.js: WebSocket handlers -/

/-- A JavaScript value as far as the handler's validation can distinguish
it: a string, `undefined` (a missing payload field), or any other value
(carrying only its truthiness). -/
inductive JsVal : Type
  | str (s : String)
  | undef
  | other (truthy : Bool)
deriving DecidableEq, Repr

/-- JS falsiness `!v` (negated): `undefined` and `""` are falsy; for
non-string non-undefined values only the recorded truthiness matters. -/
def jsFalsy : JsVal → Bool
  | .str s => s = ""
  | .undef => true
  | .other t => !t

/-- `typeof v === 'string'`. -/
def jsIsString : JsVal → Bool
  | .str _ => true
  | _ => false

/-- `typeof v === 'undefined'`. -/
def jsIsUndef : JsVal → Bool
  | .undef => true
  | _ => false

/-- The string content of a `JsVal`; only ever used after the handler's
`typeof` checks have established the value is a string. -/
def jsStr : JsVal → String
  | .str s => s
  | _ => ""

/-- `'0' ≤ c ≤ '9'`, the character class `\d` of a JS regex. -/
def isDigitChar (c : Char) : Bool := '0' ≤ c && c ≤ '9'

/-- `/^\d{4}-\d{2}-\d{2}$/.test(s)`: exactly ten characters,
`dddd-dd-dd`. -/
def matchesDayFormat (s : String) : Bool :=
  match s.toList with
  | [y1, y2, y3, y4, h1, m1, m2, h2, d1, d2] =>
    isDigitChar y1 && isDigitChar y2 && isDigitChar y3 && isDigitChar y4 &&
    h1 = '-' && isDigitChar m1 && isDigitChar m2 &&
    h2 = '-' && isDigitChar d1 && isDigitChar d2
  | _ => false

/-- The destructured payload `{ userId, date, statusText } = data.payload`;
a field absent from the JSON object destructures to `undefined`. -/
structure Payload : Type where
  userId : JsVal
  date : JsVal
  statusText : JsVal
deriving DecidableEq, Repr

/-- The handler's rejection test, in source order:
`!userId || !date || typeof statusText === 'undefined' ||
typeof userId !== 'string' || typeof date !== 'string' ||
typeof statusText !== 'string' || !/^\d{4}-\d{2}-\d{2}$/.test(date)`. -/
def invalidStatusUpdate (p : Payload) : Bool :=
  jsFalsy p.userId || jsFalsy p.date || jsIsUndef p.statusText ||
  !jsIsString p.userId || !jsIsString p.date || !jsIsString p.statusText ||
  !matchesDayFormat (jsStr p.date)

/-- The outcome of `JSON.parse` on an inbound frame: either the parse threw,
or it produced an object with a `type` string and possibly a `payload`
object (`none` when `data.payload` is absent, in which case destructuring
it throws and lands in the same `catch`). -/
inductive Inbound : Type
  | parseFail
  | parsed (mtype : String) (payload : Option Payload)
deriving DecidableEq, Repr

/-- A server-to-client frame. -/
inductive ServerMsg : Type
  | allStatuses (payload : Cache)
  | statusUpdate (userId date statusText : String)
  | errorMsg (message : String)
deriving DecidableEq, Repr

/-- Connection handles. -/
abbrev ConnId := Nat

/-- Server state: the Live Cache, the Persistent Store, and the connections
currently subscribed to the `status-updates` topic. -/
structure ServerState : Type where
  cache : Cache
  store : Store
  subscribers : List ConnId
deriving DecidableEq, Repr

/-- `getAllStatuses()`: the Live Cache. -/
def getAllStatuses (st : ServerState) : Cache := st.cache

/-- `ws.subscribe(topic)`: Bun topic subscription is set-like. -/
def subscribeConn (subs : List ConnId) (c : ConnId) : List ConnId :=
  if c ∈ subs then subs else subs ++ [c]

/-- The `open(ws)` handler: subscribe to the topic, then send this
connection one `all_statuses` frame holding `getAllStatuses()`. -/
def wsOpen (st : ServerState) (c : ConnId) :
    ServerState × List (ConnId × ServerMsg) :=
  ({ st with subscribers := subscribeConn st.subscribers c },
   [(c, ServerMsg.allStatuses (getAllStatuses st))])

/-- The `message(ws, message)` handler.  `persistOk` models whether the
database write inside `saveStatusDB` would succeed on this call.  The
returned list holds every frame sent, each tagged with its destination;
`server.publish` to the topic is delivery to every current subscriber. -/
def wsMessage (persistOk : Bool) (st : ServerState) (sender : ConnId)
    (m : Inbound) : ServerState × List (ConnId × ServerMsg) :=
  match m with
  | .parseFail =>
    (st, [(sender, ServerMsg.errorMsg "Invalid message format or server error")])
  | .parsed mtype payload =>
    if mtype = "typing" || mtype = "status_update" then
      match payload with
      | none =>
        -- destructuring `undefined` throws; caught by the outer catch
        (st, [(sender, ServerMsg.errorMsg "Invalid message format or server error")])
      | some p =>
        if invalidStatusUpdate p then
          (st, [(sender, ServerMsg.errorMsg "Invalid status update data or format")])
        else
          let userId := jsStr p.userId
          let date := jsStr p.date
          let statusText := jsStr p.statusText
          let r := saveStatusDB persistOk st.cache st.store userId date statusText
          if r.2.2 then
            ({ st with cache := r.1, store := r.2.1 },
             st.subscribers.map fun cid =>
               (cid, ServerMsg.statusUpdate userId date statusText))
          else
            ({ st with cache := r.1, store := r.2.1 },
             [(sender, ServerMsg.errorMsg "Failed to save status update on server")])
    else
      -- unknown type: only a console warning
      (st, [])

/-- The `close(ws)` handler: `ws.unsubscribe(topic)`. -/
def wsClose (st : ServerState) (c : ConnId) :
    ServerState × List (ConnId × ServerMsg) :=
  ({ st with subscribers := st.subscribers.filter (· ≠ c) }, [])

/-- A connection-level event the server reacts to. -/
inductive Event : Type
  | openEvt (c : ConnId)
  | msgEvt (sender : ConnId) (persistOk : Bool) (m : Inbound)
  | closeEvt (c : ConnId)
deriving DecidableEq, Repr

/-- Dispatch one event to its handler. -/
def step (st : ServerState) : Event → ServerState × List (ConnId × ServerMsg)
  | .openEvt c => wsOpen st c
  | .msgEvt sender persistOk m => wsMessage persistOk st sender m
  | .closeEvt c => wsClose st c

/-- Run a sequence of events, collecting every sent frame in order. -/
def run (st : ServerState) : List Event → ServerState × List (ConnId × ServerMsg)
  | [] => (st, [])
  | e :: es =>
    let r := step st e
    let r' := run r.1 es
    (r'.1, r.2 ++ r'.2)

/-- The frames delivered to connection `c`, in order. -/
def msgsTo (c : ConnId) (out : List (ConnId × ServerMsg)) : List ServerMsg :=
  (out.filter (fun p => p.1 = c)).map Prod.snd

/-- The connection an event concerns (its opener, sender, or closer). -/
def eventConn : Event → ConnId
  | .openEvt c => c
  | .msgEvt sender _ _ => sender
  | .closeEvt c => c

/-! ### Client sync agent: the WebSocket section of the frontend data service -/

/-- `WebSocket.readyState` values the module's guards distinguish. -/
inductive ReadyState : Type
  | connecting
  | openRS
  | closedRS
deriving DecidableEq, Repr

/-- The module-level connection state: `socket` (or `null`),
`reconnectAttempts`, and whether `reconnectTimeoutId` holds a pending
scheduled reconnect. -/
structure ClientState : Type where
  socket : Option ReadyState
  reconnectAttempts : Nat
  pendingReconnect : Bool
deriving DecidableEq, Repr

/-- `const MAX_RECONNECT_ATTEMPTS = 5`. -/
def MAX_RECONNECT_ATTEMPTS : Nat := 5

/-- `const RECONNECT_DELAY = 3000` (milliseconds). -/
def RECONNECT_DELAY : Nat := 3000

/-- `handleWebSocketClose()`: clear the socket, notify listeners of
`closed`, and — if the retry budget remains — increment
`reconnectAttempts` and schedule `connectWebSocketInternal` after
`RECONNECT_DELAY`; otherwise give up.  The second component is the delay
of the scheduled reconnect, or `none` when none is scheduled. -/
def handleWebSocketClose (st : ClientState) : ClientState × Option Nat :=
  let st1 : ClientState := { st with socket := none }
  if st1.reconnectAttempts < MAX_RECONNECT_ATTEMPTS then
    ({ st1 with reconnectAttempts := st1.reconnectAttempts + 1,
                pendingReconnect := true },
     some RECONNECT_DELAY)
  else
    (st1, none)

/-- `connectWebSocketInternal()`: return early if the socket is already
open or connecting; otherwise clear any pending reconnect timeout and
construct a new `WebSocket` (state `connecting`).  `createOk = false`
models the constructor throwing, in which case `handleWebSocketClose()` is
invoked.  The second component is as in `handleWebSocketClose`. -/
def connectWebSocketInternal (createOk : Bool) (st : ClientState) :
    ClientState × Option Nat :=
  match st.socket with
  | some ReadyState.openRS => (st, none)
  | some ReadyState.connecting => (st, none)
  | _ =>
    let st1 : ClientState := { st with pendingReconnect := false }
    if createOk then
      ({ st1 with socket := some ReadyState.connecting }, none)
    else
      handleWebSocketClose st1

/-- `socket.onopen`: the connection is established; reset
`reconnectAttempts` to zero (listeners are notified of `open`). -/
def clientHandleOpen (st : ClientState) : ClientState :=
  { st with socket := some ReadyState.openRS, reconnectAttempts := 0 }

/-- `connectWebSocket()` (the exported manual entry point): only when the
socket is absent or closed, reset `reconnectAttempts` to zero and call
`connectWebSocketInternal`. -/
def connectWebSocket (createOk : Bool) (st : ClientState) :
    ClientState × Option Nat :=
  if st.socket = none ∨ st.socket = some ReadyState.closedRS then
    connectWebSocketInternal createOk { st with reconnectAttempts := 0 }
  else
    (st, none)

/-- The number of automatic reconnect attempts scheduled during a streak of
`n` consecutive handshake failures starting from `st` (the socket is
connecting and each handshake fails, firing `onclose`): each failure runs
`handleWebSocketClose`; when it schedules a reconnect, the timer later
fires `connectWebSocketInternal` (successfully constructing a socket whose
handshake is the next failure); when it does not, the streak is terminal
and no further attempt can occur. -/
def autoReconnects (n : Nat) (st : ClientState) : Nat :=
  match n with
  | 0 => 0
  | n + 1 =>
    let r := handleWebSocketClose st
    match r.2 with
    | none => 0
    | some _ => 1 + autoReconnects n (connectWebSocketInternal true r.1).1

/-! ### Client sync agent: listener registry -/

/-- Listener callbacks, by identity (the registry is a JS `Set`, so
identity is what membership compares). -/
abbrev Listener := Nat

/-- Invoking one listener either returns or throws, as dictated by the
environment `throws`. -/
def invokeListener (throws : Listener → Bool) (l : Listener) : Except Unit Unit :=
  if throws l then Except.error () else Except.ok ()

/-- `notifyListeners(message)`: `messageListeners.forEach` with the body
wrapped in `try { listener(message) } catch { console.error(...) }`; the
result is the invocation log, in registry order.  A thrown exception is
logged and the loop continues. -/
def notifyListeners (throws : Listener → Bool) : List Listener → List Listener
  | [] => []
  | l :: rest =>
    match invokeListener throws l with
    | Except.ok _ => l :: notifyListeners throws rest
    | Except.error _ => l :: notifyListeners throws rest

/-- `addWebSocketMessageListener(callback)`: `messageListeners.add`
(set semantics: adding a present element is a no-op). -/
def addWebSocketMessageListener (ls : List Listener) (cb : Listener) :
    List Listener :=
  if cb ∈ ls then ls else ls ++ [cb]

/-- The de-registration closure returned by `addWebSocketMessageListener`:
`() => { messageListeners.delete(callback); }`. -/
def removeListenerFn (ls : List Listener) (cb : Listener) : List Listener :=
  ls.filter (· ≠ cb)

/-! ### Auxiliary definitions for stating the claims -/

/-- Whitespace as JS `String.prototype.trim` strips it (the ASCII part;
enough to witness that the pipeline performs no trimming). -/
def isJsSpace (c : Char) : Bool :=
  c = ' ' || c = '\t' || c = '\n' || c = '\r'

/-- JS `text.trim()`: strip `isJsSpace` characters from both ends. -/
def jsTrim (s : String) : String :=
  String.mk (((s.toList.dropWhile isJsSpace).reverse.dropWhile isJsSpace).reverse)

/-- The structural-invalidity conditions of the claim, stated in the
claim's own terms: empty subject, empty day, day failing the format
pattern, or a required field missing (`undefined`) or not a string. -/
def ClaimInvalid (p : Payload) : Prop :=
  p.userId = JsVal.str "" ∨ p.date = JsVal.str "" ∨
  (∀ s, p.date = JsVal.str s → matchesDayFormat s = false) ∨
  jsIsString p.userId = false ∨ jsIsString p.date = false ∨
  jsIsString p.statusText = false

/-- Connection `c` is untouched: not initially subscribed and not the
opener/sender/closer of any event of `evs`. -/
def FreshConn (c : ConnId) (st : ServerState) (evs : List Event) : Prop :=
  c ∉ st.subscribers ∧ ∀ e ∈ evs, eventConn e ≠ c

/-- A concrete event history for exercising the snapshot-on-connect path:
connection 0 opens and sends two accepted updates to two different
`(subject, day)` pairs. -/
def demoEvents : List Event :=
  [Event.openEvt 0,
   Event.msgEvt 0 true (Inbound.parsed "status_update"
     (some (Payload.mk (JsVal.str "emp1") (JsVal.str "2025-01-15")
       (JsVal.str "Working on docs")))),
   Event.msgEvt 0 true (Inbound.parsed "status_update"
     (some (Payload.mk (JsVal.str "emp2") (JsVal.str "2025-01-16")
       (JsVal.str "Review"))))]

/-- A server starting empty with no subscribers. -/
def demoStart : ServerState := ServerState.mk [] [] []

/-! ### Lemmas about the association-list primitives -/

lemma getKey_setKey_self {α : Type} {m : List (String × α)} {k : String} {v : α} :
    getKey (setKey m k v) k = some v := by
  induction m with
  | nil => simp [setKey, getKey]
  | cons kv rest ih =>
    obtain ⟨k', v'⟩ := kv
    by_cases h : k' = k
    · simp [setKey, getKey, h]
    · simp [setKey, getKey, h, ih]

lemma getKey_setKey_ne {α : Type} {m : List (String × α)} {k k' : String} {v : α}
    (h : k' ≠ k) : getKey (setKey m k v) k' = getKey m k' := by
  induction m with
  | nil => simp [setKey, getKey, Ne.symm h]
  | cons kv rest ih =>
    obtain ⟨k₀, v₀⟩ := kv
    by_cases h0 : k₀ = k
    · subst h0
      simp [setKey, getKey, Ne.symm h]
    · by_cases h1 : k₀ = k'
      · subst h1
        simp [setKey, getKey, h0]
      · simp [setKey, getKey, h0, h1, ih]

lemma storeLookup_storeUpsert_self {s : Store} {u d t : String} :
    storeLookup (storeUpsert s u d t) u d = some t := by
  induction s with
  | nil => simp [storeUpsert, storeLookup]
  | cons kv rest ih =>
    obtain ⟨k, v⟩ := kv
    by_cases h : k = (u, d)
    · simp [storeUpsert, storeLookup, h]
    · simp [storeUpsert, storeLookup, h, ih]

lemma storeLookup_storeUpsert_ne {s : Store} {u d t u' d' : String}
    (h : (u', d') ≠ (u, d)) :
    storeLookup (storeUpsert s u d t) u' d' = storeLookup s u' d' := by
  induction s with
  | nil => simp [storeUpsert, storeLookup, Ne.symm h]
  | cons kv rest ih =>
    obtain ⟨k, v⟩ := kv
    by_cases h0 : k = (u, d)
    · subst h0
      simp [storeUpsert, storeLookup, Ne.symm h]
    · by_cases h1 : k = (u', d')
      · subst h1
        simp [storeUpsert, storeLookup, h0]
      · simp [storeUpsert, storeLookup, h0, h1, ih]

lemma cacheLookup_cacheSet_self {c : Cache} {u d t : String} :
    cacheLookup (cacheSet c u d t) u d = some t := by
  unfold cacheSet
  cases hg : getKey c u with
  | none =>
    have h1 : getKey (setKey c u ([] : List (String × String))) u = some [] :=
      getKey_setKey_self
    simp only [hg, h1]
    unfold cacheLookup
    simp [getKey_setKey_self]
  | some inner =>
    simp only [hg]
    unfold cacheLookup
    simp [getKey_setKey_self]

lemma cacheLookup_cacheSet_ne {c : Cache} {u d t u' d' : String}
    (h : (u', d') ≠ (u, d)) :
    cacheLookup (cacheSet c u d t) u' d' = cacheLookup c u' d' := by
  by_cases hu : u' = u
  · subst hu
    have hd : d' ≠ d := fun hh => h (by rw [hh])
    unfold cacheSet
    cases hg : getKey c u' with
    | none =>
      have h1 : getKey (setKey c u' ([] : List (String × String))) u' = some [] :=
        getKey_setKey_self
      simp only [hg, h1]
      unfold cacheLookup
      simp [getKey_setKey_self, getKey_setKey_ne hd, getKey, hg, Ne.symm hd]
    | some inner =>
      simp only [hg]
      unfold cacheLookup
      simp [getKey_setKey_self, getKey_setKey_ne hd, hg]
  · unfold cacheSet
    cases hg : getKey c u with
    | none =>
      have h1 : getKey (setKey c u ([] : List (String × String))) u = some [] :=
        getKey_setKey_self
      simp only [hg, h1]
      unfold cacheLookup
      simp [getKey_setKey_ne hu, getKey_setKey_ne hu]
    | some inner =>
      simp only [hg]
      unfold cacheLookup
      simp [getKey_setKey_ne hu]

/-! ### Claims about saveStatusDB -/

/-- C1, counterexample: calling `saveStatusDB` with blank text for
`("emp1", "2025-01-15")` does not remove the pair — afterwards the Live
Cache still has the day key (now holding `""`) and the Persistent Store
still has the row (now holding `""`), contradicting tombstone removal. -/
theorem C1_counterexample :
    cacheLookup (saveStatusDB true [("emp1", [("2025-01-15", "Working")])]
        [(("emp1", "2025-01-15"), "Working")] "emp1" "2025-01-15" "").1
        "emp1" "2025-01-15" = some "" ∧
    storeLookup (saveStatusDB true [("emp1", [("2025-01-15", "Working")])]
        [(("emp1", "2025-01-15"), "Working")] "emp1" "2025-01-15" "").2.1
        "emp1" "2025-01-15" = some "" := by
  decide

/-- C1, amended: for every subject and day, `saveStatusDB` with blank/empty
text stores the blank text like any other value — afterwards
`cache[subject][day]` is the empty string, the store (when the write
succeeds) upserts the empty string, and nothing is removed. -/
theorem C1_blank_stored (persistOk : Bool) (c : Cache) (s : Store) (u d : String) :
    cacheLookup (saveStatusDB persistOk c s u d "").1 u d = some "" ∧
    (saveStatusDB persistOk c s u d "").2.1 =
      (if persistOk then storeUpsert s u d "" else s) ∧
    storeLookup (saveStatusDB true c s u d "").2.1 u d = some "" := by
  refine ⟨?_, ?_, ?_⟩
  · cases persistOk <;> simp [saveStatusDB, cacheLookup_cacheSet_self]
  · cases persistOk <;> simp [saveStatusDB]
  · simp [saveStatusDB, storeLookup_storeUpsert_self]

/-- C4, counterexample: the pipeline does not trim — for the text
`"  hi  "` the Live Cache afterwards holds `"  hi  "` itself, which
differs from its trimmed form `"hi"`. -/
theorem C4_counterexample :
    cacheLookup (saveStatusDB true [] [] "emp1" "2025-01-15" "  hi  ").1
      "emp1" "2025-01-15" = some "  hi  " ∧
    jsTrim "  hi  " = "hi" ∧
    ("  hi  " : String) ≠ jsTrim "  hi  " := by
  decide

/-- C4, amended: for every update, `saveStatusDB` writes the text exactly
as received (no trimming) into the Live Cache, and the cache write happens
before (independently of) the persistence attempt, so the cache carries
the received text even when persistence fails. -/
theorem C4_cache_untrimmed (persistOk : Bool) (c : Cache) (s : Store)
    (u d t : String) :
    (saveStatusDB persistOk c s u d t).1 = cacheSet c u d t ∧
    cacheLookup (saveStatusDB persistOk c s u d t).1 u d = some t ∧
    (saveStatusDB false c s u d t).1 = (saveStatusDB true c s u d t).1 := by
  refine ⟨?_, ?_, ?_⟩
  · cases persistOk <;> simp [saveStatusDB]
  · cases persistOk <;> simp [saveStatusDB, cacheLookup_cacheSet_self]
  · simp [saveStatusDB]

/-- C10: `saveStatusDB` only touches its own `(subject, day)` pair — every
Live Cache entry of any different pair (another day of the same subject,
or any day of another subject) reads the same before and after the call,
whether or not persistence succeeds. -/
theorem C10_frame (persistOk : Bool) (c : Cache) (s : Store)
    (u d t u' d' : String) (h : (u', d') ≠ (u, d)) :
    cacheLookup (saveStatusDB persistOk c s u d t).1 u' d' = cacheLookup c u' d' := by
  cases persistOk <;> simp [saveStatusDB, cacheLookup_cacheSet_ne h]

/-- C10, witness: a concrete cache with two subjects and two days; updating
`("emp1", "2025-01-15")` leaves `("emp1", "2025-01-14")` reading as
before. -/
theorem C10_frame_witness :
    cacheLookup (saveStatusDB true
        [("emp1", [("2025-01-15", "a"), ("2025-01-14", "b")]),
         ("emp2", [("2025-01-15", "c")])] [] "emp1" "2025-01-15" "x").1
      "emp1" "2025-01-14" =
    cacheLookup
        [("emp1", [("2025-01-15", "a"), ("2025-01-14", "b")]),
         ("emp2", [("2025-01-15", "c")])] "emp1" "2025-01-14" :=
  C10_frame true
    [("emp1", [("2025-01-15", "a"), ("2025-01-14", "b")]),
     ("emp2", [("2025-01-15", "c")])] [] "emp1" "2025-01-15" "x"
    "emp1" "2025-01-14" (by decide)

/-! ### Lemmas about the message handler -/

lemma invalid_of_claimInvalid {p : Payload} (h : ClaimInvalid p) :
    invalidStatusUpdate p = true := by
  obtain ⟨u, d, t⟩ := p
  simp only [ClaimInvalid] at h
  rcases h with h | h | h | h | h | h
  · simp [invalidStatusUpdate, h, jsFalsy]
  · simp [invalidStatusUpdate, h, jsFalsy]
  · cases d with
    | str s =>
      have hs := h s rfl
      simp [invalidStatusUpdate, jsStr, hs]
    | undef => simp [invalidStatusUpdate, jsIsString]
    | other b => simp [invalidStatusUpdate, jsIsString]
  · simp [invalidStatusUpdate, h]
  · simp [invalidStatusUpdate, h]
  · simp [invalidStatusUpdate, h]

lemma ne_empty_of_matchesDayFormat {d : String} (h : matchesDayFormat d = true) :
    d ≠ "" := by
  intro hh
  subst hh
  exact absurd h (by decide)

lemma msgsTo_map_nil {subs : List ConnId} {c : ConnId} (h : c ∉ subs)
    (msg : ServerMsg) :
    msgsTo c (subs.map (fun cid => (cid, msg))) = [] := by
  induction subs with
  | nil => rfl
  | cons a rest ih =>
    have ha : ¬(a = c) := fun hh => h (hh ▸ List.mem_cons_self a rest)
    have hr : c ∉ rest := fun hh => h (List.mem_cons_of_mem a hh)
    simp only [List.map_cons, msgsTo, List.filter_cons]
    simp only [msgsTo] at ih
    simp [ha, ih hr]

lemma msgsTo_map_single {subs : List ConnId} {c : ConnId} (hnd : subs.Nodup)
    (hc : c ∈ subs) (msg : ServerMsg) :
    msgsTo c (subs.map (fun cid => (cid, msg))) = [msg] := by
  induction subs with
  | nil => cases hc
  | cons a rest ih =>
    rcases List.mem_cons.mp hc with h | h
    · subst h
      have hnot : c ∉ rest := (List.nodup_cons.mp hnd).1
      simp only [List.map_cons, msgsTo, List.filter_cons]
      have := msgsTo_map_nil hnot msg
      simp only [msgsTo] at this
      simp [this]
    · have hnd' : rest.Nodup := (List.nodup_cons.mp hnd).2
      have ha : ¬(a = c) := fun hh => (List.nodup_cons.mp hnd).1 (hh ▸ h)
      simp only [List.map_cons, msgsTo, List.filter_cons]
      have := ih hnd' h
      simp only [msgsTo] at this
      simp [ha, this]

/-! ### Claims about the message handler -/

/-- C5: an inbound update (of either processed kind) whose subject is
empty, whose day is empty or fails the day-format pattern, or whose
required fields are missing or not strings, is rejected immediately: the
server state (Live Cache, Persistent Store, subscribers) is unchanged and
the only frame sent is one error message to the originating connection. -/
theorem C5_validation_reject (persistOk : Bool) (st : ServerState)
    (sender : ConnId) (mtype : String) (payload : Option Payload)
    (hm : mtype = "typing" ∨ mtype = "status_update")
    (hp : payload = none ∨ ∃ p, payload = some p ∧ ClaimInvalid p) :
    (wsMessage persistOk st sender (Inbound.parsed mtype payload)).1 = st ∧
    ∃ e, (wsMessage persistOk st sender (Inbound.parsed mtype payload)).2 =
      [(sender, ServerMsg.errorMsg e)] := by
  have hcond : (mtype = "typing" || mtype = "status_update") = true := by
    rcases hm with h | h <;> simp [h]
  rcases hp with h | ⟨p, hp, hinv⟩
  · subst h
    constructor
    · simp [wsMessage, hcond]
    · exact ⟨"Invalid message format or server error", by simp [wsMessage, hcond]⟩
  · subst hp
    constructor
    · simp [wsMessage, hcond, invalid_of_claimInvalid hinv]
    · exact ⟨"Invalid status update data or format",
        by simp [wsMessage, hcond, invalid_of_claimInvalid hinv]⟩

/-- C5, witness: a malformed day `"2025-1-5"` is rejected with an error to
the sender and no state change. -/
theorem C5_validation_reject_witness :
    (wsMessage true
        (ServerState.mk [("emp1", [("2025-01-15", "x")])]
          [(("emp1", "2025-01-15"), "x")] [0, 1]) 0
        (Inbound.parsed "status_update"
          (some (Payload.mk (JsVal.str "emp1") (JsVal.str "2025-1-5")
            (JsVal.str "hi"))))).1 =
      ServerState.mk [("emp1", [("2025-01-15", "x")])]
        [(("emp1", "2025-01-15"), "x")] [0, 1] ∧
    ∃ e, (wsMessage true
        (ServerState.mk [("emp1", [("2025-01-15", "x")])]
          [(("emp1", "2025-01-15"), "x")] [0, 1]) 0
        (Inbound.parsed "status_update"
          (some (Payload.mk (JsVal.str "emp1") (JsVal.str "2025-1-5")
            (JsVal.str "hi"))))).2 =
      [(0, ServerMsg.errorMsg e)] :=
  C5_validation_reject true
    (ServerState.mk [("emp1", [("2025-01-15", "x")])]
      [(("emp1", "2025-01-15"), "x")] [0, 1]) 0
    "status_update"
    (some (Payload.mk (JsVal.str "emp1") (JsVal.str "2025-1-5") (JsVal.str "hi")))
    (Or.inr rfl)
    (Or.inr ⟨_, rfl, Or.inr (Or.inr (Or.inl (fun s hs => by cases hs; decide)))⟩)

/-- C3, counterexample: an inbound message of type `"typing"` — which is
not `"status_update"` — is processed like an update: it mutates the Live
Cache, writes the Persistent Store, and broadcasts to the topic. -/
theorem C3_counterexample :
    ("typing" : String) ≠ "status_update" ∧
    wsMessage true (ServerState.mk [] [] [0]) 0
        (Inbound.parsed "typing"
          (some (Payload.mk (JsVal.str "emp1") (JsVal.str "2025-01-15")
            (JsVal.str "hi")))) =
      (ServerState.mk [("emp1", [("2025-01-15", "hi")])]
        [(("emp1", "2025-01-15"), "hi")] [0],
       [(0, ServerMsg.statusUpdate "emp1" "2025-01-15" "hi")]) := by
  decide

/-- C3, amended: `"status_update"` and `"typing"` are the only inbound
message kinds the server acts on — any other inbound message (unknown
type, or an unparsable frame) leaves the Live Cache, the Persistent Store
and the subscriber set unchanged and sends no broadcast, at most an error
frame back to the sender. -/
theorem C3_amended (persistOk : Bool) (st : ServerState) (sender : ConnId)
    (m : Inbound)
    (h1 : ∀ p, m ≠ Inbound.parsed "status_update" p)
    (h2 : ∀ p, m ≠ Inbound.parsed "typing" p) :
    (wsMessage persistOk st sender m).1 = st ∧
    ∀ q ∈ (wsMessage persistOk st sender m).2,
      ∃ e, q = (sender, ServerMsg.errorMsg e) := by
  cases m with
  | parseFail =>
    refine ⟨rfl, ?_⟩
    intro q hq
    simp [wsMessage] at hq
    exact ⟨_, hq⟩
  | parsed mtype payload =>
    have ht : ¬(mtype = "typing") := fun hh => h2 payload (by rw [hh])
    have hs : ¬(mtype = "status_update") := fun hh => h1 payload (by rw [hh])
    refine ⟨?_, ?_⟩
    · simp [wsMessage, ht, hs]
    · intro q hq
      simp [wsMessage, ht, hs] at hq

/-- C3, amended, witness: a message of unknown type `"hello"` changes
nothing and sends nothing but (possibly) an error to the sender. -/
theorem C3_amended_witness :
    (wsMessage true (ServerState.mk [] [] [0, 1]) 0
      (Inbound.parsed "hello" none)).1 = ServerState.mk [] [] [0, 1] ∧
    ∀ q ∈ (wsMessage true (ServerState.mk [] [] [0, 1]) 0
      (Inbound.parsed "hello" none)).2,
      ∃ e, q = (0, ServerMsg.errorMsg e) :=
  C3_amended true (ServerState.mk [] [] [0, 1]) 0 (Inbound.parsed "hello" none)
    (fun p h => by injection h with h1 h2; exact absurd h1 (by decide))
    (fun p h => by injection h with h1 h2; exact absurd h1 (by decide))

/-- C2, counterexample: on a structurally valid update whose persistence
step fails, `saveStatusDB` returns `false` (not `true`), the server
broadcasts nothing (subscriber 1 receives no frame), and an error frame is
sent to the originating connection — the failure is not confined to the
server logs. -/
theorem C2_counterexample :
    (saveStatusDB false [] [] "emp1" "2025-01-15" "hi").2.2 = false ∧
    wsMessage false (ServerState.mk [] [] [0, 1]) 0
        (Inbound.parsed "status_update"
          (some (Payload.mk (JsVal.str "emp1") (JsVal.str "2025-01-15")
            (JsVal.str "hi")))) =
      (ServerState.mk [("emp1", [("2025-01-15", "hi")])] [] [0, 1],
       [(0, ServerMsg.errorMsg "Failed to save status update on server")]) := by
  decide

/-- C2, amended: for a structurally valid update whose persistence step
fails after the Live Cache was updated, the pipeline returns `false`, the
Live Cache keeps the new value (no rollback) while the store is unchanged,
no broadcast occurs, and the only frame sent is one error message to the
originating connection. -/
theorem C2_amended (st : ServerState) (sender : ConnId) (u d t : String)
    (hu : u ≠ "") (hd : matchesDayFormat d = true) :
    (saveStatusDB false st.cache st.store u d t).2.2 = false ∧
    wsMessage false st sender (Inbound.parsed "status_update"
        (some (Payload.mk (JsVal.str u) (JsVal.str d) (JsVal.str t)))) =
      ({ st with cache := cacheSet st.cache u d t },
       [(sender, ServerMsg.errorMsg "Failed to save status update on server")]) := by
  have hdne : ¬(d = "") := ne_empty_of_matchesDayFormat hd
  refine ⟨by simp [saveStatusDB], ?_⟩
  simp [wsMessage, invalidStatusUpdate, jsFalsy, jsIsString, jsIsUndef, jsStr,
    hu, hdne, hd, saveStatusDB]

/-- C2, amended, witness: concrete failing persistence for
`("emp1", "2025-01-15", "hi")` from an empty state with two
subscribers. -/
theorem C2_amended_witness :
    (saveStatusDB false (ServerState.mk [] [] [0, 1]).cache
      (ServerState.mk [] [] [0, 1]).store "emp1" "2025-01-15" "hi").2.2 = false ∧
    wsMessage false (ServerState.mk [] [] [0, 1]) 0
        (Inbound.parsed "status_update"
          (some (Payload.mk (JsVal.str "emp1") (JsVal.str "2025-01-15")
            (JsVal.str "hi")))) =
      ({ (ServerState.mk [] [] [0, 1]) with
          cache := cacheSet (ServerState.mk [] [] [0, 1]).cache "emp1"
            "2025-01-15" "hi" },
       [(0, ServerMsg.errorMsg "Failed to save status update on server")]) :=
  C2_amended (ServerState.mk [] [] [0, 1]) 0 "emp1" "2025-01-15" "hi"
    (by decide) (by decide)

/-- C7: for every accepted update `(subject, day, text)` (valid and with
the persistence step succeeding), the handler publishes exactly one
single-update frame carrying exactly those three fields to the topic: the
output is one frame per currently subscribed connection, each subscribed
connection receives it exactly once, and in particular the originator
(being subscribed) receives its own update back. -/
theorem C7_broadcast (st : ServerState) (sender : ConnId) (u d t : String)
    (hu : u ≠ "") (hd : matchesDayFormat d = true)
    (hnd : st.subscribers.Nodup) (hsub : sender ∈ st.subscribers) :
    (wsMessage true st sender (Inbound.parsed "status_update"
        (some (Payload.mk (JsVal.str u) (JsVal.str d) (JsVal.str t))))).2 =
      st.subscribers.map (fun cid => (cid, ServerMsg.statusUpdate u d t)) ∧
    (∀ c ∈ st.subscribers,
      msgsTo c (wsMessage true st sender (Inbound.parsed "status_update"
        (some (Payload.mk (JsVal.str u) (JsVal.str d) (JsVal.str t))))).2 =
        [ServerMsg.statusUpdate u d t]) ∧
    msgsTo sender (wsMessage true st sender (Inbound.parsed "status_update"
        (some (Payload.mk (JsVal.str u) (JsVal.str d) (JsVal.str t))))).2 =
      [ServerMsg.statusUpdate u d t] := by
  have hdne : ¬(d = "") := ne_empty_of_matchesDayFormat hd
  have hout : (wsMessage true st sender (Inbound.parsed "status_update"
      (some (Payload.mk (JsVal.str u) (JsVal.str d) (JsVal.str t))))).2 =
      st.subscribers.map (fun cid => (cid, ServerMsg.statusUpdate u d t)) := by
    simp [wsMessage, invalidStatusUpdate, jsFalsy, jsIsString, jsIsUndef, jsStr,
      hu, hdne, hd, saveStatusDB]
  refine ⟨hout, ?_, ?_⟩
  · intro c hc
    rw [hout]
    exact msgsTo_map_single hnd hc _
  · rw [hout]
    exact msgsTo_map_single hnd hsub _

/-- C7, witness: with subscribers `[0, 1]` and originator `0`, the accepted
update is delivered once to each subscriber, including `0` itself. -/
theorem C7_broadcast_witness :
    (wsMessage true (ServerState.mk [] [] [0, 1]) 0
        (Inbound.parsed "status_update"
          (some (Payload.mk (JsVal.str "emp1") (JsVal.str "2025-01-15")
            (JsVal.str "Working on docs"))))).2 =
      (ServerState.mk [] [] [0, 1]).subscribers.map
        (fun cid => (cid, ServerMsg.statusUpdate "emp1" "2025-01-15"
          "Working on docs")) ∧
    (∀ c ∈ (ServerState.mk ([] : Cache) ([] : Store) [0, 1]).subscribers,
      msgsTo c (wsMessage true (ServerState.mk [] [] [0, 1]) 0
        (Inbound.parsed "status_update"
          (some (Payload.mk (JsVal.str "emp1") (JsVal.str "2025-01-15")
            (JsVal.str "Working on docs"))))).2 =
        [ServerMsg.statusUpdate "emp1" "2025-01-15" "Working on docs"]) ∧
    msgsTo 0 (wsMessage true (ServerState.mk [] [] [0, 1]) 0
        (Inbound.parsed "status_update"
          (some (Payload.mk (JsVal.str "emp1") (JsVal.str "2025-01-15")
            (JsVal.str "Working on docs"))))).2 =
      [ServerMsg.statusUpdate "emp1" "2025-01-15" "Working on docs"] :=
  C7_broadcast (ServerState.mk [] [] [0, 1]) 0 "emp1" "2025-01-15"
    "Working on docs" (by decide) (by decide) (by decide) (by decide)

/-! ### Trace lemmas for the connection lifecycle -/

lemma msgsTo_append (c : ConnId) (a b : List (ConnId × ServerMsg)) :
    msgsTo c (a ++ b) = msgsTo c a ++ msgsTo c b := by
  simp [msgsTo, List.filter_append]

lemma run_append (st : ServerState) (a b : List Event) :
    run st (a ++ b) =
      ((run (run st a).1 b).1, (run st a).2 ++ (run (run st a).1 b).2) := by
  induction a generalizing st with
  | nil => simp [run]
  | cons e rest ih =>
    simp [run, ih, List.append_assoc]

lemma wsMessage_subscribers (persistOk : Bool) (st : ServerState)
    (sender : ConnId) (m : Inbound) :
    (wsMessage persistOk st sender m).1.subscribers = st.subscribers := by
  cases m with
  | parseFail => rfl
  | parsed mtype payload =>
    by_cases hmt : (mtype = "typing" || mtype = "status_update") = true
    · cases payload with
      | none => simp [wsMessage, hmt]
      | some p =>
        by_cases hin : invalidStatusUpdate p = true
        · simp [wsMessage, hmt, hin]
        · cases persistOk <;> simp [wsMessage, hmt, hin, saveStatusDB]
    · simp [wsMessage, hmt]

lemma wsMessage_out_dest (persistOk : Bool) (st : ServerState)
    (sender : ConnId) (m : Inbound) (q : ConnId × ServerMsg)
    (hq : q ∈ (wsMessage persistOk st sender m).2) :
    q.1 = sender ∨ q.1 ∈ st.subscribers := by
  cases m with
  | parseFail =>
    simp [wsMessage] at hq
    left
    rw [hq]
  | parsed mtype payload =>
    by_cases hmt : (mtype = "typing" || mtype = "status_update") = true
    · cases payload with
      | none =>
        simp [wsMessage, hmt] at hq
        left
        rw [hq]
      | some p =>
        by_cases hin : invalidStatusUpdate p = true
        · simp [wsMessage, hmt, hin] at hq
          left
          rw [hq]
        · cases persistOk with
          | false =>
            simp [wsMessage, hmt, hin, saveStatusDB] at hq
            left
            rw [hq]
          | true =>
            simp [wsMessage, hmt, hin, saveStatusDB] at hq
            right
            obtain ⟨cid, hc1, hc2⟩ := hq
            rw [← hc2]
            exact hc1
    · simp [wsMessage, hmt] at hq

lemma step_out_dest (st : ServerState) (e : Event) (q : ConnId × ServerMsg)
    (hq : q ∈ (step st e).2) : q.1 = eventConn e ∨ q.1 ∈ st.subscribers := by
  cases e with
  | openEvt c =>
    simp [step, wsOpen] at hq
    left
    rw [hq]
    rfl
  | msgEvt sender persistOk m =>
    simpa [step, eventConn] using wsMessage_out_dest persistOk st sender m q hq
  | closeEvt c =>
    simp [step, wsClose] at hq

lemma step_sub_dest (st : ServerState) (e : Event) (x : ConnId)
    (hx : x ∈ (step st e).1.subscribers) :
    x ∈ st.subscribers ∨ x = eventConn e := by
  cases e with
  | openEvt c =>
    simp only [step, wsOpen] at hx
    unfold subscribeConn at hx
    split at hx
    · exact Or.inl hx
    · simp at hx
      rcases hx with h | h
      · exact Or.inl h
      · exact Or.inr h
  | msgEvt sender persistOk m =>
    simp only [step] at hx
    rw [wsMessage_subscribers] at hx
    exact Or.inl hx
  | closeEvt c =>
    simp [step, wsClose] at hx
    exact Or.inl hx.1

lemma run_fresh (st : ServerState) (evs : List Event) (c : ConnId)
    (h : FreshConn c st evs) :
    msgsTo c (run st evs).2 = [] ∧ c ∉ (run st evs).1.subscribers := by
  induction evs generalizing st with
  | nil => exact ⟨rfl, h.1⟩
  | cons e rest ih =>
    obtain ⟨hsub, hconn⟩ := h
    have hce : eventConn e ≠ c := hconn e (List.mem_cons_self e rest)
    have hstep_out : msgsTo c (step st e).2 = [] := by
      have hall : ∀ q ∈ (step st e).2, ¬(q.1 = c) := by
        intro q hq hqc
        rcases step_out_dest st e q hq with h1 | h1
        · exact hce (h1.symm.trans hqc)
        · exact hsub (hqc ▸ h1)
      simp only [msgsTo]
      rw [List.filter_eq_nil_iff.mpr (by intro a ha; simpa using hall a ha)]
      rfl
    have hstep_sub : c ∉ (step st e).1.subscribers := by
      intro hcx
      rcases step_sub_dest st e c hcx with h1 | h1
      · exact hsub h1
      · exact hce h1.symm
    have ih' := ih (step st e).1
      ⟨hstep_sub, fun e' he' => hconn e' (List.mem_cons_of_mem e he')⟩
    constructor
    · show msgsTo c (run st (e :: rest)).2 = []
      have : run st (e :: rest) =
          ((run (step st e).1 rest).1, (step st e).2 ++ (run (step st e).1 rest).2) := by
        simp [run]
      rw [this, msgsTo_append, hstep_out, ih'.1]
      rfl
    · show c ∉ (run st (e :: rest)).1.subscribers
      have : (run st (e :: rest)).1 = (run (step st e).1 rest).1 := by
        simp [run]
      rw [this]
      exact ih'.2

lemma mem_subscribeConn_self (subs : List ConnId) (c : ConnId) :
    c ∈ subscribeConn subs c := by
  unfold subscribeConn
  split
  · assumption
  · simp

/-- C6: a connection `c`, fresh for the initial state and the preceding
events, that opens after an arbitrary event history `evs` is subscribed to
the topic, and the frames it ever receives are exactly one `all_statuses`
snapshot whose payload is the Live Cache at connect time (the state after
`evs`, hence reflecting every previously accepted update), followed only
by frames produced by later events — so the snapshot precedes any
subsequent single-update frame delivered to `c`. -/
theorem C6_snapshot (st0 : ServerState) (evs evs2 : List Event) (c : ConnId)
    (h : FreshConn c st0 evs) :
    msgsTo c (run st0 (evs ++ Event.openEvt c :: evs2)).2 =
      ServerMsg.allStatuses (getAllStatuses (run st0 evs).1) ::
        msgsTo c (run (wsOpen (run st0 evs).1 c).1 evs2).2 ∧
    c ∈ (wsOpen (run st0 evs).1 c).1.subscribers := by
  have hfresh := run_fresh st0 evs c h
  constructor
  · have hsplit := run_append st0 evs (Event.openEvt c :: evs2)
    rw [hsplit]
    have hcons : run (run st0 evs).1 (Event.openEvt c :: evs2) =
        ((run (step (run st0 evs).1 (Event.openEvt c)).1 evs2).1,
         (step (run st0 evs).1 (Event.openEvt c)).2 ++
           (run (step (run st0 evs).1 (Event.openEvt c)).1 evs2).2) := by
      simp [run]
    rw [hcons, msgsTo_append, hfresh.1, msgsTo_append]
    simp [step, wsOpen, msgsTo]
  · exact mem_subscribeConn_self _ _

/-- C6, witness: connection 1 opens after two accepted updates from
connection 0; its first (and here only) frame is the snapshot equal to the
Live Cache at connect time, and it is subscribed. -/
theorem C6_snapshot_witness :
    msgsTo 1 (run demoStart (demoEvents ++ Event.openEvt 1 :: [])).2 =
      ServerMsg.allStatuses (getAllStatuses (run demoStart demoEvents).1) ::
        msgsTo 1 (run (wsOpen (run demoStart demoEvents).1 1).1 []).2 ∧
    1 ∈ (wsOpen (run demoStart demoEvents).1 1).1.subscribers :=
  C6_snapshot demoStart demoEvents [] 1 ⟨by decide, by decide⟩

/-! ### Claims about the client sync agent -/

lemma autoReconnects_eq (n : Nat) (st : ClientState) :
    autoReconnects n st =
      min n (MAX_RECONNECT_ATTEMPTS - st.reconnectAttempts) := by
  induction n generalizing st with
  | zero => simp [autoReconnects]
  | succ n ih =>
    by_cases hlt : st.reconnectAttempts < MAX_RECONNECT_ATTEMPTS
    · have e1 : handleWebSocketClose st =
          (ClientState.mk none (st.reconnectAttempts + 1) true,
           some RECONNECT_DELAY) := by
        simp [handleWebSocketClose, hlt]
      have e2 : connectWebSocketInternal true
          (ClientState.mk none (st.reconnectAttempts + 1) true) =
          (ClientState.mk (some ReadyState.connecting)
            (st.reconnectAttempts + 1) false, none) := rfl
      simp only [autoReconnects, e1, e2]
      rw [ih]
      simp only [MAX_RECONNECT_ATTEMPTS] at hlt ⊢
      omega
    · have e1 : (handleWebSocketClose st).2 = none := by
        simp [handleWebSocketClose, hlt]
      simp only [autoReconnects, e1]
      simp only [MAX_RECONNECT_ATTEMPTS] at hlt ⊢
      omega

/-- C8: starting a failure streak with the attempt counter at zero, `n`
consecutive failed handshakes schedule exactly `min n 5` automatic
reconnects — never a sixth; every scheduled reconnect uses the same fixed
delay `RECONNECT_DELAY`; the counter is reset to zero by the `onopen`
transition; and a manual `connectWebSocket()` in a state where it is not a
no-op (socket absent or closed — in particular the terminal state, whose
socket is cleared) resets the counter to zero. -/
theorem C8_reconnect_cap (st : ClientState) (n : Nat)
    (h0 : st.reconnectAttempts = 0) :
    autoReconnects n st = min n MAX_RECONNECT_ATTEMPTS ∧
    autoReconnects n st ≤ 5 ∧
    (∀ st' : ClientState, (handleWebSocketClose st').2 = none ∨
      (handleWebSocketClose st').2 = some RECONNECT_DELAY) ∧
    (∀ st' : ClientState, (clientHandleOpen st').reconnectAttempts = 0) ∧
    (∀ st' : ClientState,
      (st'.socket = none ∨ st'.socket = some ReadyState.closedRS) →
      (connectWebSocket true st').1.reconnectAttempts = 0) := by
  have hmain : autoReconnects n st = min n MAX_RECONNECT_ATTEMPTS := by
    rw [autoReconnects_eq, h0, Nat.sub_zero]
  refine ⟨hmain, ?_, ?_, ?_, ?_⟩
  · rw [hmain]
    simp [MAX_RECONNECT_ATTEMPTS]
  · intro st'
    by_cases hlt : st'.reconnectAttempts < MAX_RECONNECT_ATTEMPTS
    · exact Or.inr (by simp [handleWebSocketClose, hlt])
    · exact Or.inl (by simp [handleWebSocketClose, hlt])
  · intro st'
    rfl
  · intro st' h
    rcases h with h | h <;>
      simp [connectWebSocket, connectWebSocketInternal, h]

/-- C8, witness: from a fresh connection attempt (counter at zero), six
consecutive handshake failures schedule only five automatic reconnects. -/
theorem C8_reconnect_cap_witness :
    autoReconnects 6 (ClientState.mk (some ReadyState.connecting) 0 false) =
      min 6 MAX_RECONNECT_ATTEMPTS ∧
    autoReconnects 6 (ClientState.mk (some ReadyState.connecting) 0 false) ≤ 5 ∧
    (∀ st' : ClientState, (handleWebSocketClose st').2 = none ∨
      (handleWebSocketClose st').2 = some RECONNECT_DELAY) ∧
    (∀ st' : ClientState, (clientHandleOpen st').reconnectAttempts = 0) ∧
    (∀ st' : ClientState,
      (st'.socket = none ∨ st'.socket = some ReadyState.closedRS) →
      (connectWebSocket true st').1.reconnectAttempts = 0) :=
  C8_reconnect_cap (ClientState.mk (some ReadyState.connecting) 0 false) 6 rfl

lemma notifyListeners_eq (throws : Listener → Bool) (ls : List Listener) :
    notifyListeners throws ls = ls := by
  induction ls with
  | nil => rfl
  | cons l rest ih =>
    cases h : throws l <;> simp [notifyListeners, invokeListener, h, ih]

/-- C9: the notification loop invokes every registered listener exactly
once (the invocation log equals the registry, for every pattern of
throwing listeners — a throwing listener never prevents later ones), and
the de-registration function returned by `addWebSocketMessageListener`
removes exactly the listener it was created for: that listener is gone,
membership of every other listener is untouched, and removing right after
adding yields the same registry as removing from the original. -/
theorem C9_listener_isolation :
    (∀ (throws : Listener → Bool) (ls : List Listener),
      notifyListeners throws ls = ls) ∧
    (∀ (throws : Listener → Bool) (ls : List Listener) (l : Listener),
      (notifyListeners throws ls).count l = ls.count l) ∧
    (∀ (ls : List Listener) (cb : Listener), cb ∉ removeListenerFn ls cb) ∧
    (∀ (ls : List Listener) (cb x : Listener), x ≠ cb →
      (x ∈ removeListenerFn ls cb ↔ x ∈ ls)) ∧
    (∀ (ls : List Listener) (cb : Listener),
      removeListenerFn (addWebSocketMessageListener ls cb) cb =
        removeListenerFn ls cb) := by
  refine ⟨notifyListeners_eq, ?_, ?_, ?_, ?_⟩
  · intro throws ls l
    rw [notifyListeners_eq]
  · intro ls cb
    simp [removeListenerFn]
  · intro ls cb x h
    simp [removeListenerFn, List.mem_filter, h]
  · intro ls cb
    unfold addWebSocketMessageListener
    split
    · rfl
    · simp [removeListenerFn, List.filter_append]

/-- C9, witness: the remover for listener `2` leaves listener `3`'s
membership unchanged in the registry `[2, 3]`. -/
theorem C9_listener_isolation_witness :
    (3 ∈ removeListenerFn [2, 3] 2 ↔ 3 ∈ [2, 3]) :=
  C9_listener_isolation.2.2.2.1 [2, 3] 2 3 (by decide)
